import Mathlib

/-!
Verification of the D-Bus helper layer of bluez-alsa (`src/dbus.c`).

The development shallowly embeds the three components of the file:
the method-call dispatcher (`g_dbus_dispatch_method_call`), the
interface-skeleton adapter (`interface_skeleton_ex_method_call`), and
the blocking bus helpers (`g_dbus_get_managed_objects`,
`g_dbus_get_property`, `g_dbus_set_property`,
`g_dbus_connection_emit_properties_changed`).

External effects are made explicit:
* handler invocation is recorded as a `DispatchEvent` value, carrying
  which handler ran and whether it ran inline or as a detached worker;
* the outcomes of `pthread_create` / `pthread_detach` are an explicit
  `LaunchEnv` parameter;
* the synchronous request/reply transport is an explicit `SendResult`
  parameter (a reply message, or a transport failure);
* a GLib `GError **` out-parameter is modelled by a `Bool` saying
  whether the caller passed a NULL pointer, together with an
  `Option GErrorVal` result holding what was written through it.
-/

set_option linter.unusedVariables false

/-- A D-Bus value, as far as the verified properties need to look at one. -/
inductive VariantVal where
  | str (s : String)
  | int (n : Int)
  | bool (b : Bool)
deriving DecidableEq, Repr

/-- A `a\x7bsv\x7d` dictionary: property name to value. -/
abbrev PropertyBag := List (String × VariantVal)

/-- Interface name to property bag, as in a managed-objects reply. -/
abbrev InterfaceMap := List (String × PropertyBag)

/-- One element of a `GetManagedObjects` reply: object path with its
interface map. -/
abbrev ManagedObject := String × InterfaceMap

/-! ## Filter table and dispatcher (`g_dbus_dispatch_method_call`) -/

/-- One filter-table entry of `src/dbus.c`: four optional string
matchers, a handler (the sentinel entry has `handler = none`), and the
`asynchronous_call` flag.  `H` is the type of handler references. -/
structure GDBusMethodCallDispatcher (H : Type) where
  sender : Option String
  path : Option String
  interface : Option String
  method : Option String
  handler : Option H
  asynchronous_call : Bool
deriving DecidableEq, Repr

/-- Outcomes of the two pthread calls made when launching a detached
worker; these are environment conditions, not inputs of the C function. -/
structure LaunchEnv where
  createOk : Bool
  detachOk : Bool
deriving DecidableEq, Repr

/-- Observable effect of a dispatch: a handler invoked synchronously on
the calling thread, or a detached worker created to run a handler.  The
invocation handle and userdata are forwarded to the handler unchanged;
these events are the only channel through which the dispatcher touches
the invocation. -/
inductive DispatchEvent (H : Type) where
  | inlineCall (h : H)
  | launchJob (h : H)
deriving DecidableEq, Repr

/-- One matcher field: `d->field != NULL && strcmp(d->field, v) != 0`
makes the entry skip; this is the complement of that test. -/
def fieldMatches : Option String → String → Bool
  | none, _ => true
  | some s, v => s == v

/-- `g_dbus_dispatch_method_call` (src/dbus.c:50-99).  The loop runs
until the sentinel (`handler == NULL`); each entry is skipped on the
first mismatching non-wildcard field; on the first full match the
handler runs inline, or a detached worker is launched.  The result is
the C return value paired with the list of handler events. -/
def g_dbus_dispatch_method_call {H : Type} (env : LaunchEnv) :
    List (GDBusMethodCallDispatcher H) → String → String → String → String →
    Bool × List (DispatchEvent H)
  | [], _, _, _, _ => (false, [])
  | d :: rest, sender, path, interface, method =>
    match d.handler with
    | none => (false, [])
    | some h =>
      if fieldMatches d.sender sender = false then
        g_dbus_dispatch_method_call env rest sender path interface method
      else if fieldMatches d.path path = false then
        g_dbus_dispatch_method_call env rest sender path interface method
      else if fieldMatches d.interface interface = false then
        g_dbus_dispatch_method_call env rest sender path interface method
      else if fieldMatches d.method method = false then
        g_dbus_dispatch_method_call env rest sender path interface method
      else
        if d.asynchronous_call = false then
          (true, [DispatchEvent.inlineCall h])
        else if env.createOk = false then
          (false, [])
        else if env.detachOk = false then
          (false, [DispatchEvent.launchJob h])
        else
          (true, [DispatchEvent.launchJob h])

/-- Spec-side matching rule, written from the specification's words: an
entry matches when each of its four fields is wildcard (unset) or equal
to the corresponding incoming field. -/
def specEntryMatches {H : Type} (d : GDBusMethodCallDispatcher H)
    (sender path interface method : String) : Bool :=
  fieldMatches d.sender sender && fieldMatches d.path path &&
  fieldMatches d.interface interface && fieldMatches d.method method

/-- Spec-side selection rule: the first entry, in table order and before
the sentinel, that matches the incoming call. -/
def specFirstMatch {H : Type} :
    List (GDBusMethodCallDispatcher H) → String → String → String → String →
    Option (GDBusMethodCallDispatcher H)
  | [], _, _, _, _ => none
  | d :: rest, sender, path, interface, method =>
    match d.handler with
    | none => none
    | some _ =>
      if specEntryMatches d sender path interface method then some d
      else specFirstMatch rest sender path interface method

/-- Unfolding lemma: one loop iteration of the dispatcher, phrased with
the spec-side per-entry matching rule. -/
theorem dispatch_cons {H : Type} (env : LaunchEnv)
    (d : GDBusMethodCallDispatcher H) (rest : List (GDBusMethodCallDispatcher H))
    (sender path interface method : String) :
    g_dbus_dispatch_method_call env (d :: rest) sender path interface method =
      match d.handler with
      | none => (false, [])
      | some h =>
        if specEntryMatches d sender path interface method then
          (if d.asynchronous_call = false then
            (true, [DispatchEvent.inlineCall h])
          else if env.createOk = false then
            (false, [])
          else if env.detachOk = false then
            (false, [DispatchEvent.launchJob h])
          else
            (true, [DispatchEvent.launchJob h]))
        else
          g_dbus_dispatch_method_call env rest sender path interface method := by
  rw [g_dbus_dispatch_method_call]
  cases hh : d.handler with
  | none => rfl
  | some h =>
    simp only [specEntryMatches]
    by_cases h1 : fieldMatches d.sender sender <;>
      by_cases h2 : fieldMatches d.path path <;>
        by_cases h3 : fieldMatches d.interface interface <;>
          by_cases h4 : fieldMatches d.method method <;>
            simp [h1, h2, h3, h4]

/-- Master characterization: the dispatcher's result is a function of
the spec-side first matching entry and, when that entry is detached, of
the worker-launch environment. -/
theorem dispatch_eq_specFirstMatch {H : Type} (env : LaunchEnv)
    (tbl : List (GDBusMethodCallDispatcher H))
    (sender path interface method : String) :
    g_dbus_dispatch_method_call env tbl sender path interface method =
      match specFirstMatch tbl sender path interface method with
      | none => (false, [])
      | some d =>
        match d.handler with
        | none => (false, [])
        | some h =>
          if d.asynchronous_call = false then
            (true, [DispatchEvent.inlineCall h])
          else if env.createOk = false then
            (false, [])
          else if env.detachOk = false then
            (false, [DispatchEvent.launchJob h])
          else
            (true, [DispatchEvent.launchJob h]) := by
  induction tbl with
  | nil => rfl
  | cons d rest ih =>
    rw [dispatch_cons, specFirstMatch]
    cases hh : d.handler with
    | none => rfl
    | some h =>
      by_cases hm : specEntryMatches d sender path interface method
      · simp [hm, hh]
      · simp only [hm, if_neg, Bool.false_eq_true, if_false]
        simpa using ih

/-! ## Dispatcher claims -/

/-- C1: for every filter table and incoming call tuple, dispatch selects
the first entry (in table order, before the sentinel) whose four matcher
fields are each wildcard or byte-equal to the incoming fields; exactly
that entry's handler is dispatched (inline, or as a detached job when
worker launch succeeds), no later entry is considered, and dispatch
returns true. -/
theorem dispatch_selects_first_match {H : Type} (env : LaunchEnv)
    (tbl : List (GDBusMethodCallDispatcher H))
    (sender path interface method : String)
    (d : GDBusMethodCallDispatcher H) (h : H)
    (hfm : specFirstMatch tbl sender path interface method = some d)
    (hh : d.handler = some h)
    (hok : d.asynchronous_call = false ∨ (env.createOk = true ∧ env.detachOk = true)) :
    g_dbus_dispatch_method_call env tbl sender path interface method =
      (true, [if d.asynchronous_call then DispatchEvent.launchJob h
              else DispatchEvent.inlineCall h]) := by
  rw [dispatch_eq_specFirstMatch, hfm]
  simp only [hh]
  rcases hok with hsync | ⟨hc, hd⟩
  · simp [hsync]
  · cases ha : d.asynchronous_call
    · simp [ha]
    · simp [ha, hc, hd]

/-- Witness for C1: a concrete table where the second entry is the first
match and a later catch-all entry also matches; the second entry's
handler is dispatched inline. -/
theorem dispatch_selects_first_match_witness :
    specFirstMatch (H := Nat)
        [⟨some "other", none, none, none, some 1, false⟩,
         ⟨none, some "/org/x", none, some "Get", some 2, false⟩,
         ⟨none, none, none, none, some 3, true⟩]
        "s" "/org/x" "i" "Get" =
      some ⟨none, some "/org/x", none, some "Get", some 2, false⟩ ∧
    g_dbus_dispatch_method_call (H := Nat) ⟨true, true⟩
        [⟨some "other", none, none, none, some 1, false⟩,
         ⟨none, some "/org/x", none, some "Get", some 2, false⟩,
         ⟨none, none, none, none, some 3, true⟩]
        "s" "/org/x" "i" "Get" = (true, [DispatchEvent.inlineCall 2]) := by
  refine ⟨by decide, ?_⟩
  have := dispatch_selects_first_match (H := Nat) ⟨true, true⟩
    [⟨some "other", none, none, none, some 1, false⟩,
     ⟨none, some "/org/x", none, some "Get", some 2, false⟩,
     ⟨none, none, none, none, some 3, true⟩]
    "s" "/org/x" "i" "Get"
    ⟨none, some "/org/x", none, some "Get", some 2, false⟩ 2
    (by decide) (by decide) (Or.inl (by decide))
  simpa using this

/-- C2: when no entry of the table matches the incoming call, dispatch
returns false, produces no handler event (so no handler is invoked), and
the invocation handle is never touched. -/
theorem dispatch_no_match_no_handler {H : Type} (env : LaunchEnv)
    (tbl : List (GDBusMethodCallDispatcher H))
    (sender path interface method : String)
    (hfm : specFirstMatch tbl sender path interface method = none) :
    g_dbus_dispatch_method_call env tbl sender path interface method = (false, []) := by
  rw [dispatch_eq_specFirstMatch, hfm]

/-- Witness for C2: a table whose only entry requires a different method
name; dispatch returns false with no events. -/
theorem dispatch_no_match_no_handler_witness :
    specFirstMatch (H := Nat)
        [⟨none, none, none, some "Get", some 1, false⟩] "s" "/p" "i" "Set" = none ∧
    g_dbus_dispatch_method_call (H := Nat) ⟨true, true⟩
        [⟨none, none, none, some "Get", some 1, false⟩] "s" "/p" "i" "Set" =
      (false, []) :=
  ⟨by decide,
   dispatch_no_match_no_handler ⟨true, true⟩
     [⟨none, none, none, some "Get", some 1, false⟩] "s" "/p" "i" "Set" (by decide)⟩

/-- Counterexample for C4: the claim says a detached-entry launch
failure is reported by an outcome distinct (distinguishable by the
caller) from the no-match outcome.  In the code both paths execute
`return false`, so at these concrete inputs the result of a
launch-failure dispatch (matching catch-all detached entry,
`pthread_create` fails) is identical to the result of a no-match
dispatch (empty table): `(false, [])` in both cases. -/
theorem dispatch_launch_failure_counterexample :
    g_dbus_dispatch_method_call (H := Nat) ⟨false, true⟩
        [⟨none, none, none, none, some 1, true⟩] "s" "/p" "i" "m" = (false, []) ∧
    g_dbus_dispatch_method_call (H := Nat) ⟨false, true⟩
        [] "s" "/p" "i" "m" = (false, []) := by
  constructor <;> decide

/-- C4 amended: when the first matching entry is marked detached and
worker creation (`pthread_create`) fails, dispatch returns false — the
same value as the no-match outcome, so the caller cannot tell the two
apart from the result — no handler is launched, the invocation is left
uncompleted, and no retry is attempted (the result is exactly
`(false, [])`). -/
theorem dispatch_launch_failure_returns_false {H : Type} (env : LaunchEnv)
    (tbl : List (GDBusMethodCallDispatcher H))
    (sender path interface method : String)
    (d : GDBusMethodCallDispatcher H)
    (hfm : specFirstMatch tbl sender path interface method = some d)
    (hasync : d.asynchronous_call = true)
    (hc : env.createOk = false) :
    g_dbus_dispatch_method_call env tbl sender path interface method = (false, []) := by
  rw [dispatch_eq_specFirstMatch, hfm]
  cases hh : d.handler
  · simp [hh]
  · simp [hh, hasync, hc]

/-- Witness for C4's amended theorem: catch-all detached entry,
`pthread_create` fails. -/
theorem dispatch_launch_failure_returns_false_witness :
    specFirstMatch (H := Nat)
        [⟨none, none, none, none, some 1, true⟩] "s" "/p" "i" "m" =
      some ⟨none, none, none, none, some 1, true⟩ ∧
    g_dbus_dispatch_method_call (H := Nat) ⟨false, true⟩
        [⟨none, none, none, none, some 1, true⟩] "s" "/p" "i" "m" = (false, []) :=
  ⟨by decide,
   dispatch_launch_failure_returns_false ⟨false, true⟩
     [⟨none, none, none, none, some 1, true⟩] "s" "/p" "i" "m"
     ⟨none, none, none, none, some 1, true⟩ (by decide) (by decide) (by decide)⟩

/-- C10: when the first matching entry is detached, `pthread_create`
succeeds and `pthread_detach` fails, dispatch returns false even though
the worker running the handler has already been launched (the launch
event is present), so a false return does not imply that no handler was
invoked. -/
theorem dispatch_detach_failure_after_launch {H : Type} (env : LaunchEnv)
    (tbl : List (GDBusMethodCallDispatcher H))
    (sender path interface method : String)
    (d : GDBusMethodCallDispatcher H) (h : H)
    (hfm : specFirstMatch tbl sender path interface method = some d)
    (hh : d.handler = some h)
    (hasync : d.asynchronous_call = true)
    (hc : env.createOk = true) (hd : env.detachOk = false) :
    g_dbus_dispatch_method_call env tbl sender path interface method =
      (false, [DispatchEvent.launchJob h]) := by
  rw [dispatch_eq_specFirstMatch, hfm]
  simp [hh, hasync, hc, hd]

/-- Witness for C10: catch-all detached entry, create succeeds and
detach fails; dispatch returns false with the handler launched. -/
theorem dispatch_detach_failure_after_launch_witness :
    specFirstMatch (H := Nat)
        [⟨none, none, none, none, some 7, true⟩] "s" "/p" "i" "m" =
      some ⟨none, none, none, none, some 7, true⟩ ∧
    g_dbus_dispatch_method_call (H := Nat) ⟨true, false⟩
        [⟨none, none, none, none, some 7, true⟩] "s" "/p" "i" "m" =
      (false, [DispatchEvent.launchJob 7]) :=
  ⟨by decide,
   dispatch_detach_failure_after_launch ⟨true, false⟩
     [⟨none, none, none, none, some 7, true⟩] "s" "/p" "i" "m"
     ⟨none, none, none, none, some 7, true⟩ 7
     (by decide) (by decide) (by decide) (by decide) (by decide)⟩

/-! ## Interface skeleton adapter (`interface_skeleton_ex_method_call`) -/

/-- Observable actions of the adapter's method-call entry point: the
dispatch events it causes, the `error(...)` log line it emits when
dispatch fails, and — so that the specification's claim about it can be
stated — completing the pending invocation with an error response
(`g_dbus_method_invocation_return_error`; the source never performs this
action in this path, so the embedding never constructs it). -/
inductive AdapterEvent (H : Type) where
  | dispatch (e : DispatchEvent H)
  | logError
  | completeWithError (message : String)
deriving DecidableEq, Repr

/-- Whether an adapter trace completes the pending invocation. -/
def adapterCompletesInvocation {H : Type} (trace : List (AdapterEvent H)) : Bool :=
  trace.any fun e =>
    match e with
    | AdapterEvent.completeWithError _ => true
    | _ => false

/-- The method-call vtable slice of `GDBusInterfaceSkeletonVTable`: the
dispatcher table.  The property callbacks of the C struct are not
modelled; no verified claim concerns them. -/
structure GDBusInterfaceSkeletonVTable (H : Type) where
  dispatchers : List (GDBusMethodCallDispatcher H)
deriving Repr

/-- `GDBusInterfaceSkeletonEx`, reduced to the fields the method-call
path reads: the vtable and the per-object userdata (opaque, of type
`U`). -/
structure GDBusInterfaceSkeletonEx (H U : Type) where
  vtable : GDBusInterfaceSkeletonVTable H
  userdata : U
deriving Repr

/-- `interface_skeleton_ex_method_call` (src/dbus.c:101-108): forwards
into the dispatcher with the stored table and userdata; when dispatch
returns false it only logs an error — nothing else happens. -/
def interface_skeleton_ex_method_call {H U : Type} (env : LaunchEnv)
    (iface : GDBusInterfaceSkeletonEx H U)
    (sender path interface method : String) : List (AdapterEvent H) :=
  let r := g_dbus_dispatch_method_call env iface.vtable.dispatchers
    sender path interface method
  if r.1 = false then
    r.2.map AdapterEvent.dispatch ++ [AdapterEvent.logError]
  else
    r.2.map AdapterEvent.dispatch

/-- Counterexample for C3: the claim says that when dispatch reports no
match, the adapter itself completes the pending invocation with an
"unknown method" error response.  At this concrete input (empty filter
table, so dispatch reports no match) the adapter's whole trace is a
single log event: it completes nothing, leaving the invocation
pending. -/
theorem adapter_unmatched_counterexample :
    interface_skeleton_ex_method_call (H := Nat) (U := Unit) ⟨true, true⟩
        ⟨⟨[]⟩, ()⟩ "s" "/p" "i" "m" = [AdapterEvent.logError] ∧
    adapterCompletesInvocation
        (interface_skeleton_ex_method_call (H := Nat) (U := Unit) ⟨true, true⟩
          ⟨⟨[]⟩, ()⟩ "s" "/p" "i" "m") = false := by
  constructor <;> decide

/-- C3 amended: when dispatch over the stored filter table reports no
match, the adapter only logs an error message; it does not complete the
pending invocation (its trace is exactly one log event, containing no
completion), so the invocation is left pending for the bus toolkit. -/
theorem adapter_unmatched_logs_only {H U : Type} (env : LaunchEnv)
    (iface : GDBusInterfaceSkeletonEx H U)
    (sender path interface method : String)
    (hfm : specFirstMatch iface.vtable.dispatchers sender path interface method = none) :
    interface_skeleton_ex_method_call env iface sender path interface method =
      [AdapterEvent.logError] := by
  unfold interface_skeleton_ex_method_call
  rw [dispatch_no_match_no_handler env _ _ _ _ _ hfm]
  rfl

/-- Witness for C3's amended theorem: a table whose single entry does
not match; the adapter trace is exactly the log event. -/
theorem adapter_unmatched_logs_only_witness :
    specFirstMatch (H := Nat)
        [⟨none, none, none, some "Get", some 1, false⟩] "s" "/p" "i" "Set" = none ∧
    interface_skeleton_ex_method_call (H := Nat) (U := Unit) ⟨true, true⟩
        ⟨⟨[⟨none, none, none, some "Get", some 1, false⟩]⟩, ()⟩
        "s" "/p" "i" "Set" = [AdapterEvent.logError] :=
  ⟨by decide,
   adapter_unmatched_logs_only ⟨true, true⟩
     ⟨⟨[⟨none, none, none, some "Get", some 1, false⟩]⟩, ()⟩
     "s" "/p" "i" "Set" (by decide)⟩

/-! ## Blocking bus helpers -/

/-- The distinction `g_dbus_message_get_message_type` is used for in
`src/dbus.c`: an error-typed reply versus any other reply. -/
inductive GDBusMessageType where
  | methodReturn
  | error
deriving DecidableEq, Repr

/-- A reply message, with body type `B` (the helpers read the body only
after ruling out the error type; `errorText` is the peer's error text
carried by an error-typed message). -/
structure GDBusMessage (B : Type) where
  msgType : GDBusMessageType
  errorText : String
  body : B
deriving Repr

/-- A local `GError` value, as written through a `GError **`. -/
structure GErrorVal where
  message : String
deriving DecidableEq, Repr

/-- Result of `g_dbus_connection_send_message_with_reply_sync`: a reply
message, or a transport failure carrying the error the call writes. -/
inductive SendResult (B : Type) where
  | ok (rep : GDBusMessage B)
  | fail (e : GErrorVal)
deriving Repr

/-- Writing through a `GError **`: a NULL pointer ignores the error. -/
def writeGError (errPtrNull : Bool) (e : GErrorVal) : Option GErrorVal :=
  if errPtrNull then none else some e

/-- `g_dbus_message_to_gerror`: converts an error-typed reply into a
local error carrying the peer's error text. -/
def g_dbus_message_to_gerror {B : Type} (rep : GDBusMessage B) : GErrorVal :=
  ⟨rep.errorText⟩

/-- `g_dbus_get_managed_objects` (src/dbus.c:201-229).  `send` is the
outcome of the synchronous round trip of the `GetManagedObjects` call;
`errPtrNull` says whether the caller passed a NULL `GError **`.  The
result pairs the returned iterator (`none` models the NULL return) with
the error written through the out-parameter.  Both messages are released
on every path; that release has no observable effect here. -/
def g_dbus_get_managed_objects (send : SendResult (List ManagedObject))
    (errPtrNull : Bool) (name path : String) :
    Option (List ManagedObject) × Option GErrorVal :=
  match send with
  | SendResult.fail e => (none, writeGError errPtrNull e)
  | SendResult.ok rep =>
    if rep.msgType = GDBusMessageType.error then
      (none, writeGError errPtrNull (g_dbus_message_to_gerror rep))
    else
      (some rep.body, none)

/-- `g_dbus_get_property` (src/dbus.c:243-272): the `Get` call of the
properties interface; the non-error reply body is the wrapped property
value unpacked by `g_variant_get(..., "(v)", ...)`. -/
def g_dbus_get_property (send : SendResult VariantVal) (errPtrNull : Bool)
    (service path interface property : String) :
    Option VariantVal × Option GErrorVal :=
  match send with
  | SendResult.fail e => (none, writeGError errPtrNull e)
  | SendResult.ok rep =>
    if rep.msgType = GDBusMessageType.error then
      (none, writeGError errPtrNull (g_dbus_message_to_gerror rep))
    else
      (some rep.body, none)

/-- `g_dbus_set_property` (src/dbus.c:285-311): the `Set` call of the
properties interface.  A non-error reply's body is ignored.  The C
function ends with `return error == NULL;`, which tests the caller's
`GError **` pointer itself, so the returned boolean is `errPtrNull` on
every path. -/
def g_dbus_set_property (send : SendResult Unit) (errPtrNull : Bool)
    (service path interface property : String) (value : VariantVal) :
    Bool × Option GErrorVal :=
  match send with
  | SendResult.fail e => (errPtrNull, writeGError errPtrNull e)
  | SendResult.ok rep =>
    if rep.msgType = GDBusMessageType.error then
      (errPtrNull, writeGError errPtrNull (g_dbus_message_to_gerror rep))
    else
      (errPtrNull, none)

/-- Modelled from the spec: the well-known properties-contract interface
name, defined in `dbus.h` (not present under src/); `src/dbus.c` uses it
as the constant `DBUS_IFACE_PROPERTIES`. -/
def DBUS_IFACE_PROPERTIES : String := "org.freedesktop.DBus.Properties"

/-- The payload built by
`g_variant_new("(sa\x7bsv\x7das)", interface, props, NULL)`: the
interface name, the changed-property dictionary, and the
invalidated-property list (the trailing NULL builds it empty). -/
structure PropertiesChangedPayload where
  signature : String
  interface : String
  changed : PropertyBag
  invalidated : List String
deriving DecidableEq, Repr

/-- One broadcast signal as handed to `g_dbus_connection_emit_signal`:
destination (`none` = broadcast), object path, interface, signal name
and payload. -/
structure EmittedSignal where
  destination : Option String
  path : String
  interface : String
  name : String
  payload : PropertiesChangedPayload
deriving DecidableEq, Repr

/-- The GLib signal-emission primitive `g_dbus_connection_emit_signal`,
as the consumed contract: it emits exactly the given signal and reports
the toolkit's success flag `emitOk`. -/
def g_dbus_connection_emit_signal (emitOk : Bool) (destination : Option String)
    (path interface name : String) (payload : PropertiesChangedPayload) :
    Bool × List EmittedSignal :=
  (emitOk, [⟨destination, path, interface, name, payload⟩])

/-- `g_dbus_connection_emit_properties_changed` (src/dbus.c:183-189):
emits `PropertiesChanged` on the properties interface, broadcast
(NULL destination), with payload
`g_variant_new("(sa\x7bsv\x7das)", interface, props, NULL)`. -/
def g_dbus_connection_emit_properties_changed (emitOk : Bool)
    (path interface : String) (props : PropertyBag) :
    Bool × List EmittedSignal :=
  g_dbus_connection_emit_signal emitOk none path DBUS_IFACE_PROPERTIES
    "PropertiesChanged" ⟨"(sa\x7bsv\x7das)", interface, props, []⟩

/-! ## Blocking-helper claims -/

/-- C5 (code bug, evaluation at the failing input): a caller passes a
non-NULL `GError **` (standard GLib usage, `errPtrNull = false`) and the
`Set` call completes with a non-error reply.  No error is produced, yet
`g_dbus_set_property` returns false, because `return error == NULL`
tests the out-parameter pointer instead of the pointed-to error.  The
claim (and the function's own documentation, "On success this function
returns true") requires true here. -/
theorem set_property_success_reply_returns_false :
    g_dbus_set_property
        (SendResult.ok ⟨GDBusMessageType.methodReturn, "", ()⟩) false
        "svc" "/obj" "org.x.Iface" "Volume" (VariantVal.int 50) =
      (false, none) := by
  decide

/-- C6: the boolean result of `g_dbus_set_property` equals whether the
caller-supplied `GError **` pointer itself is NULL, on every path: with
a non-NULL out-parameter the function returns false even on a non-error
reply, and with a NULL out-parameter it returns true regardless of the
reply. -/
theorem set_property_result_eq_errPtrNull (send : SendResult Unit)
    (errPtrNull : Bool) (service path interface property : String)
    (value : VariantVal) :
    (g_dbus_set_property send errPtrNull service path interface property value).1 =
      errPtrNull := by
  cases send with
  | fail e => rfl
  | ok rep =>
    unfold g_dbus_set_property
    by_cases h : rep.msgType = GDBusMessageType.error <;> simp [h]

/-- C7: for each blocking helper — get-managed-objects, get-property,
set-property — an error-typed reply is converted into the local error
representation (written through the caller's non-NULL error
out-parameter, with the peer's error text) and the helper returns the
error outcome (NULL value, resp. failure), never a success value. -/
theorem blocking_helpers_propagate_remote_error
    (rep1 : GDBusMessage (List ManagedObject)) (rep2 : GDBusMessage VariantVal)
    (rep3 : GDBusMessage Unit)
    (name path service interface property : String) (value : VariantVal)
    (h1 : rep1.msgType = GDBusMessageType.error)
    (h2 : rep2.msgType = GDBusMessageType.error)
    (h3 : rep3.msgType = GDBusMessageType.error) :
    g_dbus_get_managed_objects (SendResult.ok rep1) false name path =
      (none, some ⟨rep1.errorText⟩) ∧
    g_dbus_get_property (SendResult.ok rep2) false service path interface property =
      (none, some ⟨rep2.errorText⟩) ∧
    g_dbus_set_property (SendResult.ok rep3) false service path interface property value =
      (false, some ⟨rep3.errorText⟩) := by
  refine ⟨?_, ?_, ?_⟩ <;>
    simp [g_dbus_get_managed_objects, g_dbus_get_property, g_dbus_set_property,
      h1, h2, h3, writeGError, g_dbus_message_to_gerror]

/-- Witness for C7: concrete error-typed replies carrying the peer's
error text "boom"; every helper surfaces the error and no helper
returns a success value. -/
theorem blocking_helpers_propagate_remote_error_witness :
    g_dbus_get_managed_objects
        (SendResult.ok ⟨GDBusMessageType.error, "boom", []⟩) false "svc" "/p" =
      (none, some ⟨"boom"⟩) ∧
    g_dbus_get_property
        (SendResult.ok ⟨GDBusMessageType.error, "boom", VariantVal.int 0⟩) false
        "svc" "/p" "i" "prop" =
      (none, some ⟨"boom"⟩) ∧
    g_dbus_set_property
        (SendResult.ok ⟨GDBusMessageType.error, "boom", ()⟩) false
        "svc" "/p" "i" "prop" (VariantVal.int 0) =
      (false, some ⟨"boom"⟩) :=
  blocking_helpers_propagate_remote_error
    ⟨GDBusMessageType.error, "boom", []⟩
    ⟨GDBusMessageType.error, "boom", VariantVal.int 0⟩
    ⟨GDBusMessageType.error, "boom", ()⟩
    "svc" "/p" "svc" "i" "prop" (VariantVal.int 0)
    (by decide) (by decide) (by decide)

/-- C8: every call to the emit-properties-changed helper emits exactly
one broadcast signal (NULL destination) on the properties interface,
named `PropertiesChanged`, whose payload carries the wire signature
`(sa\x7bsv\x7das)`, the given interface name, exactly the given
changed-property bag, and an empty invalidated list; the boolean result
is the toolkit's emission outcome. -/
theorem emit_properties_changed_single_signal (emitOk : Bool)
    (path interface : String) (props : PropertyBag) :
    g_dbus_connection_emit_properties_changed emitOk path interface props =
      (emitOk,
       [⟨none, path, "org.freedesktop.DBus.Properties", "PropertiesChanged",
         ⟨"(sa\x7bsv\x7das)", interface, props, []⟩⟩]) := rfl

/-- C9: when the `GetManagedObjects` round trip yields a non-error reply
describing zero objects, the helper returns a non-NULL iterator yielding
no elements (`some []`) and writes no error — not the NULL error
outcome. -/
theorem get_managed_objects_empty_ok (rep : GDBusMessage (List ManagedObject))
    (errPtrNull : Bool) (name path : String)
    (hType : rep.msgType = GDBusMessageType.methodReturn)
    (hBody : rep.body = []) :
    g_dbus_get_managed_objects (SendResult.ok rep) errPtrNull name path =
      (some [], none) := by
  unfold g_dbus_get_managed_objects
  simp [hType, hBody]

/-- Witness for C9: a concrete non-error reply with an empty object
list. -/
theorem get_managed_objects_empty_ok_witness :
    g_dbus_get_managed_objects
        (SendResult.ok ⟨GDBusMessageType.methodReturn, "", []⟩) false "svc" "/p" =
      (some [], none) :=
  get_managed_objects_empty_ok ⟨GDBusMessageType.methodReturn, "", []⟩
    false "svc" "/p" (by decide) (by decide)
